import Mathlib

/-!
Verification of the OpenThread Commissioner application core
(`commissioner_app.cpp`, `joiner_internal.cpp`, `openthread/random.hpp`)
against its natural-language specification.

Byte arrays are lists of naturals (each byte < 256 where the source
guarantees it); machine integers are naturals reduced modulo 2^w at the
points where the C++ types truncate.
-/

namespace OtCommissioner

/-- Iterate a function a fixed number of times. -/
def iterateN (f : α → α) : Nat → α → α
  | 0, x => x
  | n + 1, x => iterateN f n (f x)

/-- Truncation to a 32-bit unsigned value. -/
def u32 (x : Nat) : Nat := x % 4294967296

/-- Right rotation of a 32-bit word. -/
def rotr32 (x k : Nat) : Nat := u32 ((x >>> k) ||| (x <<< (32 - k)))

/-- SHA-256 Ch function (FIPS 180-4); the C bitwise-not is modelled as xor
with the all-ones 32-bit word. -/
def sha256Ch (x y z : Nat) : Nat := (x &&& y) ^^^ ((x ^^^ 4294967295) &&& z)

/-- SHA-256 Maj function (FIPS 180-4). -/
def sha256Maj (x y z : Nat) : Nat := (x &&& y) ^^^ (x &&& z) ^^^ (y &&& z)

/-- SHA-256 big Sigma0. -/
def sha256S0 (x : Nat) : Nat := (rotr32 x 2) ^^^ (rotr32 x 13) ^^^ (rotr32 x 22)

/-- SHA-256 big Sigma1. -/
def sha256S1 (x : Nat) : Nat := (rotr32 x 6) ^^^ (rotr32 x 11) ^^^ (rotr32 x 25)

/-- SHA-256 small sigma0. -/
def sha256s0 (x : Nat) : Nat := (rotr32 x 7) ^^^ (rotr32 x 18) ^^^ (x >>> 3)

/-- SHA-256 small sigma1. -/
def sha256s1 (x : Nat) : Nat := (rotr32 x 17) ^^^ (rotr32 x 19) ^^^ (x >>> 10)

/-- The 64 SHA-256 round constants (FIPS 180-4), written in decimal. -/
def sha256K : List Nat :=
  [1116352408, 1899447441, 3049323471, 3921009573, 961987163,
   1508970993, 2453635748, 2870763221, 3624381080, 310598401,
   607225278, 1426881987, 1925078388, 2162078206, 2614888103,
   3248222580, 3835390401, 4022224774, 264347078, 604807628,
   770255983, 1249150122, 1555081692, 1996064986, 2554220882,
   2821834349, 2952996808, 3210313671, 3336571891, 3584528711,
   113926993, 338241895, 666307205, 773529912, 1294757372,
   1396182291, 1695183700, 1986661051, 2177026350, 2456956037,
   2730485921, 2820302411, 3259730800, 3345764771, 3516065817,
   3600352804, 4094571909, 275423344, 430227734, 506948616,
   659060556, 883997877, 958139571, 1322822218, 1537002063,
   1747873779, 1955562222, 2024104815, 2227730452, 2361852424,
   2428436474, 2756734187, 3204031479, 3329325298]

/-- Working state of the SHA-256 compression function. -/
structure Sha256State where
  a : Nat
  b : Nat
  c : Nat
  d : Nat
  e : Nat
  f : Nat
  g : Nat
  h : Nat
deriving Repr, DecidableEq

/-- SHA-256 initial hash value (FIPS 180-4), written in decimal. -/
def sha256Init : Sha256State :=
  ⟨1779033703, 3144134277, 1013904242, 2773480762,
   1359893119, 2600822924, 528734635, 1541459225⟩

/-- Group a byte list into big-endian 32-bit words. -/
def toWords : List Nat → List Nat
  | b0 :: b1 :: b2 :: b3 :: rest =>
      ((b0 <<< 24) ||| (b1 <<< 16) ||| (b2 <<< 8) ||| b3) :: toWords rest
  | _ => []

/-- One extension step of the SHA-256 message schedule: append word n
computed from words n-2, n-7, n-15 and n-16. -/
def schedStep (w : List Nat) : List Nat :=
  let n := w.length
  w ++ [u32 (sha256s1 (w.getD (n - 2) 0) + w.getD (n - 7) 0 +
             sha256s0 (w.getD (n - 15) 0) + w.getD (n - 16) 0)]

/-- Extend the 16 block words to the full 64-word schedule. -/
def schedule (w16 : List Nat) : List Nat := iterateN schedStep 48 w16

/-- One SHA-256 round, taking the precomputed value K t + W t. -/
def sha256Round (s : Sha256State) (kw : Nat) : Sha256State :=
  let t1 := u32 (s.h + sha256S1 s.e + sha256Ch s.e s.f s.g + kw)
  let t2 := u32 (sha256S0 s.a + sha256Maj s.a s.b s.c)
  { a := u32 (t1 + t2), b := s.a, c := s.b, d := s.c,
    e := u32 (s.d + t1), f := s.e, g := s.f, h := s.g }

/-- Compress one 64-byte block into the running hash state. -/
def sha256Compress (st : Sha256State) (block : List Nat) : Sha256State :=
  let w := schedule (toWords block)
  let kws := List.zipWith (fun k wi => u32 (k + wi)) sha256K w
  let fin := kws.foldl sha256Round st
  { a := u32 (st.a + fin.a), b := u32 (st.b + fin.b), c := u32 (st.c + fin.c),
    d := u32 (st.d + fin.d), e := u32 (st.e + fin.e), f := u32 (st.f + fin.f),
    g := u32 (st.g + fin.g), h := u32 (st.h + fin.h) }

/-- Big-endian 8-byte encoding of a 64-bit value. -/
def encodeU64BE (x : Nat) : List Nat :=
  [(x >>> 56) % 256, (x >>> 48) % 256, (x >>> 40) % 256, (x >>> 32) % 256,
   (x >>> 24) % 256, (x >>> 16) % 256, (x >>> 8) % 256, x % 256]

/-- SHA-256 padding: append 0x80, zeros up to 56 mod 64, then the 8-byte
big-endian bit length. -/
def sha256Pad (msg : List Nat) : List Nat :=
  msg ++ [0x80] ++ List.replicate ((119 - msg.length % 64) % 64) 0 ++
    encodeU64BE (8 * msg.length)

/-- Split a byte list into 64-byte blocks (fuelled by the list length). -/
def toBlocksAux : Nat → List Nat → List (List Nat)
  | 0, _ => []
  | _, [] => []
  | fuel + 1, bs => bs.take 64 :: toBlocksAux fuel (bs.drop 64)

/-- Split a (padded) byte list into 64-byte blocks. -/
def toBlocks (bs : List Nat) : List (List Nat) := toBlocksAux bs.length bs

/-- Big-endian 4-byte serialization of a 32-bit word. -/
def wordBytesBE (x : Nat) : List Nat :=
  [(x >>> 24) % 256, (x >>> 16) % 256, (x >>> 8) % 256, x % 256]

/-- SHA-256 of a byte list (FIPS 180-4); the Sha256 crypto primitive used by
`ComputeJoinerId` in `joiner_internal.cpp`. -/
def sha256 (msg : List Nat) : List Nat :=
  let fin := (toBlocks (sha256Pad msg)).foldl sha256Compress sha256Init
  wordBytesBE fin.a ++ wordBytesBE fin.b ++ wordBytesBE fin.c ++ wordBytesBE fin.d ++
  wordBytesBE fin.e ++ wordBytesBE fin.f ++ wordBytesBE fin.g ++ wordBytesBE fin.h

/-- A SHA-256 digest is 32 bytes. -/
theorem sha256_length (msg : List Nat) : (sha256 msg).length = 32 := by
  simp [sha256, wordBytesBE]

/-- The length of a joiner ID (`kJoinerIdLength` in `joiner_internal.hpp`,
whose header is not under src/; the spec fixes it to 8 bytes). -/
def kJoinerIdLength : Nat := 8

/-- The IEEE local-address bit of byte 0 (`kLocalExternalAddrMask`; the
header is not under src/, the spec fixes it to 0x02). -/
def kLocalExternalAddrMask : Nat := 0x02

/-- ComputeJoinerId on an EUI-64, translated from `joiner_internal.cpp`:
big-endian encode, SHA-256, truncate to 8 bytes, OR byte 0 with the
local-address mask. -/
def computeJoinerId (aEui64 : Nat) : List Nat :=
  let hash := sha256 (encodeU64BE aEui64)
  let joinerId := hash.take kJoinerIdLength
  joinerId.set 0 ((joinerId.getD 0 0) ||| kLocalExternalAddrMask)

/-- Modelled from the spec: the joiner discerner ("explicit 8-byte joiner
identifier bypassing EUI-64 derivation"); the `JoinerDiscerner` declaration
(`joiner_internal.hpp`) is not under src/, so its payload is modelled as the
8 bytes the spec describes. -/
structure JoinerDiscerner where
  mData : List Nat
deriving Repr, DecidableEq

/-- ComputeJoinerId on a discerner, from `joiner_internal.cpp`: the returned
joiner ID is the 8-byte discerner payload verbatim (the `utils::Hex`
conversion of `mData`, whose declaration is not under src/, is modelled from
the spec as the identity on the 8 payload bytes). -/
def computeJoinerIdOfDiscerner (aDiscerner : JoinerDiscerner) : List Nat :=
  aDiscerner.mData

/-- Modelled from the spec: CRC16-CCITT (polynomial 0x1021, MSB first) used
by the steering-data Bloom filter of invariant I3; the implementation behind
`Commissioner::AddJoiner` is not under src/. -/
def crc16Step (crc b : Nat) : Nat :=
  iterateN
    (fun c => if c.testBit 15 then ((c <<< 1) ^^^ 0x1021) % 65536 else (c <<< 1) % 65536)
    8 ((crc ^^^ (b <<< 8)) % 65536)

/-- CRC16-CCITT of a byte list. -/
def crc16 (bs : List Nat) : Nat := bs.foldl crc16Step 0

/-- Set the Bloom-filter bit of a joiner ID in a steering-data byte array,
per invariant I3: bit `CRC16-CCITT(J) mod 8·len`, counted from the last
byte. -/
def setSteeringBit (sd : List Nat) (aJoinerId : List Nat) : List Nat :=
  let i := crc16 aJoinerId % (8 * sd.length)
  let byteIdx := sd.length - 1 - i / 8
  sd.set byteIdx ((sd.getD byteIdx 0) ||| (1 <<< (i % 8)))

/-- Modelled from the spec: `Commissioner::AddJoiner` (not under src/) grows
the steering data to the maximal 16 bytes when its length differs and sets
the Bloom bit of the joiner ID per invariant I3. -/
def addJoiner (aSteeringData : List Nat) (aJoinerId : List Nat) : List Nat :=
  setSteeringBit (if aSteeringData.length = 16 then aSteeringData else List.replicate 16 0)
    aJoinerId

/-- Joiner types, from `commissioner/defs.hpp` (declaration not under src/;
the three values are used throughout `commissioner_app.cpp`). -/
inductive JoinerType
  | kMeshCoP
  | kAE
  | kNMKP
deriving Repr, DecidableEq

/-- A radio channel (page and channel number). -/
structure Channel where
  mPage : Nat := 0
  mNumber : Nat := 0
deriving Repr, DecidableEq

/-- The Commissioner Dataset mirror, from `commissioner.hpp` (declaration
not under src/): each field with its presence bit, here one Bool per bit of
`mPresentFlags`. -/
structure CommissionerDataset where
  mBorderAgentLocator : Nat := 0
  mSessionId : Nat := 0
  mSteeringData : List Nat := []
  mAeSteeringData : List Nat := []
  mNmkpSteeringData : List Nat := []
  mJoinerUdpPort : Nat := 0
  mAeUdpPort : Nat := 0
  mNmkpUdpPort : Nat := 0
  borderAgentLocatorPresent : Bool := false
  sessionIdPresent : Bool := false
  steeringDataPresent : Bool := false
  aeSteeringDataPresent : Bool := false
  nmkpSteeringDataPresent : Bool := false
  joinerUdpPortPresent : Bool := false
  aeUdpPortPresent : Bool := false
  nmkpUdpPortPresent : Bool := false
deriving Repr, DecidableEq

/-- The Active Operational Dataset mirror (declaration not under src/);
field payloads opaque to the merge engine are naturals or byte lists. -/
structure ActiveOperationalDataset where
  mActiveTimestamp : Nat := 0
  mChannel : Channel := {}
  mChannelMask : Nat := 0
  mExtendedPanId : List Nat := []
  mMeshLocalPfx : List Nat := []
  mNetworkMasterKey : List Nat := []
  mNetworkName : String := ""
  mPanId : Nat := 0
  mPSKc : List Nat := []
  mSecurityPolicy : List Nat := []
  activeTimestampPresent : Bool := false
  channelPresent : Bool := false
  channelMaskPresent : Bool := false
  extendedPanIdPresent : Bool := false
  meshLocalPfxPresent : Bool := false
  networkMasterKeyPresent : Bool := false
  networkNamePresent : Bool := false
  panIdPresent : Bool := false
  pskcPresent : Bool := false
  securityPolicyPresent : Bool := false
deriving Repr, DecidableEq

/-- The Pending Operational Dataset mirror: the Active fields plus the
pending timestamp and delay timer. -/
structure PendingOperationalDataset extends ActiveOperationalDataset where
  mPendingTimestamp : Nat := 0
  mDelayTimer : Nat := 0
  pendingTimestampPresent : Bool := false
  delayTimerPresent : Bool := false
deriving Repr, DecidableEq

/-- The BBR Dataset mirror (CCM). -/
structure BbrDataset where
  mTriHostname : String := ""
  mRegistrarHostname : String := ""
  mRegistrarIpv6Addr : String := ""
  triHostnamePresent : Bool := false
  registrarHostnamePresent : Bool := false
  registrarIpv6AddrPresent : Bool := false
deriving Repr, DecidableEq

/-- MergeDataset on the Active dataset (`commissioner_app.cpp` lines
1175-1196): per field, TEST_AND_SET copies the value and sets the presence
bit when present in src, and does nothing when absent. -/
def mergeActiveDataset (aDst aSrc : ActiveOperationalDataset) : ActiveOperationalDataset :=
  { mActiveTimestamp := if aSrc.activeTimestampPresent then aSrc.mActiveTimestamp else aDst.mActiveTimestamp,
    activeTimestampPresent := if aSrc.activeTimestampPresent then true else aDst.activeTimestampPresent,
    mChannel := if aSrc.channelPresent then aSrc.mChannel else aDst.mChannel,
    channelPresent := if aSrc.channelPresent then true else aDst.channelPresent,
    mChannelMask := if aSrc.channelMaskPresent then aSrc.mChannelMask else aDst.mChannelMask,
    channelMaskPresent := if aSrc.channelMaskPresent then true else aDst.channelMaskPresent,
    mExtendedPanId := if aSrc.extendedPanIdPresent then aSrc.mExtendedPanId else aDst.mExtendedPanId,
    extendedPanIdPresent := if aSrc.extendedPanIdPresent then true else aDst.extendedPanIdPresent,
    mMeshLocalPfx := if aSrc.meshLocalPfxPresent then aSrc.mMeshLocalPfx else aDst.mMeshLocalPfx,
    meshLocalPfxPresent := if aSrc.meshLocalPfxPresent then true else aDst.meshLocalPfxPresent,
    mNetworkMasterKey := if aSrc.networkMasterKeyPresent then aSrc.mNetworkMasterKey else aDst.mNetworkMasterKey,
    networkMasterKeyPresent := if aSrc.networkMasterKeyPresent then true else aDst.networkMasterKeyPresent,
    mNetworkName := if aSrc.networkNamePresent then aSrc.mNetworkName else aDst.mNetworkName,
    networkNamePresent := if aSrc.networkNamePresent then true else aDst.networkNamePresent,
    mPanId := if aSrc.panIdPresent then aSrc.mPanId else aDst.mPanId,
    panIdPresent := if aSrc.panIdPresent then true else aDst.panIdPresent,
    mPSKc := if aSrc.pskcPresent then aSrc.mPSKc else aDst.mPSKc,
    pskcPresent := if aSrc.pskcPresent then true else aDst.pskcPresent,
    mSecurityPolicy := if aSrc.securityPolicyPresent then aSrc.mSecurityPolicy else aDst.mSecurityPolicy,
    securityPolicyPresent := if aSrc.securityPolicyPresent then true else aDst.securityPolicyPresent }

/-- MergeDataset on the Pending dataset (lines 1198-1213): merge the Active
part, then TEST_AND_SET PendingTimestamp and DelayTimer. -/
def mergePendingDataset (aDst aSrc : PendingOperationalDataset) : PendingOperationalDataset :=
  { toActiveOperationalDataset :=
      mergeActiveDataset aDst.toActiveOperationalDataset aSrc.toActiveOperationalDataset,
    mPendingTimestamp := if aSrc.pendingTimestampPresent then aSrc.mPendingTimestamp else aDst.mPendingTimestamp,
    pendingTimestampPresent := if aSrc.pendingTimestampPresent then true else aDst.pendingTimestampPresent,
    mDelayTimer := if aSrc.delayTimerPresent then aSrc.mDelayTimer else aDst.mDelayTimer,
    delayTimerPresent := if aSrc.delayTimerPresent then true else aDst.delayTimerPresent }

/-- MergeDataset on the BBR dataset (lines 1215-1229): TEST_AND_SET on the
three hostname/address fields. -/
def mergeBbrDataset (aDst aSrc : BbrDataset) : BbrDataset :=
  { mTriHostname := if aSrc.triHostnamePresent then aSrc.mTriHostname else aDst.mTriHostname,
    triHostnamePresent := if aSrc.triHostnamePresent then true else aDst.triHostnamePresent,
    mRegistrarHostname := if aSrc.registrarHostnamePresent then aSrc.mRegistrarHostname else aDst.mRegistrarHostname,
    registrarHostnamePresent := if aSrc.registrarHostnamePresent then true else aDst.registrarHostnamePresent,
    mRegistrarIpv6Addr := if aSrc.registrarIpv6AddrPresent then aSrc.mRegistrarIpv6Addr else aDst.mRegistrarIpv6Addr,
    registrarIpv6AddrPresent := if aSrc.registrarIpv6AddrPresent then true else aDst.registrarIpv6AddrPresent }

/-- MergeDataset on the Commissioner dataset (lines 1233-1265):
BorderAgentLocator and SessionId follow plain TEST_AND_SET; the steering
data and joiner UDP port families follow the extended rule whose else
branch clears the destination presence bit. -/
def mergeCommissionerDataset (aDst aSrc : CommissionerDataset) : CommissionerDataset :=
  { mBorderAgentLocator := if aSrc.borderAgentLocatorPresent then aSrc.mBorderAgentLocator else aDst.mBorderAgentLocator,
    borderAgentLocatorPresent := if aSrc.borderAgentLocatorPresent then true else aDst.borderAgentLocatorPresent,
    mSessionId := if aSrc.sessionIdPresent then aSrc.mSessionId else aDst.mSessionId,
    sessionIdPresent := if aSrc.sessionIdPresent then true else aDst.sessionIdPresent,
    mSteeringData := if aSrc.steeringDataPresent then aSrc.mSteeringData else aDst.mSteeringData,
    steeringDataPresent := if aSrc.steeringDataPresent then true else false,
    mAeSteeringData := if aSrc.aeSteeringDataPresent then aSrc.mAeSteeringData else aDst.mAeSteeringData,
    aeSteeringDataPresent := if aSrc.aeSteeringDataPresent then true else false,
    mNmkpSteeringData := if aSrc.nmkpSteeringDataPresent then aSrc.mNmkpSteeringData else aDst.mNmkpSteeringData,
    nmkpSteeringDataPresent := if aSrc.nmkpSteeringDataPresent then true else false,
    mJoinerUdpPort := if aSrc.joinerUdpPortPresent then aSrc.mJoinerUdpPort else aDst.mJoinerUdpPort,
    joinerUdpPortPresent := if aSrc.joinerUdpPortPresent then true else false,
    mAeUdpPort := if aSrc.aeUdpPortPresent then aSrc.mAeUdpPort else aDst.mAeUdpPort,
    aeUdpPortPresent := if aSrc.aeUdpPortPresent then true else false,
    mNmkpUdpPort := if aSrc.nmkpUdpPortPresent then aSrc.mNmkpUdpPort else aDst.mNmkpUdpPort,
    nmkpUdpPortPresent := if aSrc.nmkpUdpPortPresent then true else false }

/-- Error kinds of the structured error (spec section 7); the app code
returns them through ERROR_* macros. `kNone` is success. -/
inductive ErrorKind
  | kNone
  | kInvalidArgs
  | kInvalidState
  | kNotFound
  | kAlreadyExists
  | kSecurity
  | kTimeout
  | kRejected
  | kCancelled
  | kIoError
  | kInternal
deriving Repr, DecidableEq

/-- A joiner map key: joiner type and joiner ID (`CommissionerApp::JoinerKey`). -/
structure JoinerKey where
  mType : JoinerType
  mId : List Nat
deriving Repr, DecidableEq

/-- A joiner entry (`JoinerInfo`, declaration not under src/). Modelled from
the spec for the commissioned flag: an entry is "created by EnableJoiner,
marked commissioned on COMM_JOIN.req", so a fresh entry carries false. -/
structure JoinerInfo where
  mType : JoinerType
  mEui64 : Nat
  mPSKd : List Nat
  mProvisioningUrl : String
  mIsCommissioned : Bool := false
deriving Repr, DecidableEq

/-- The joiner map (`std::map<JoinerKey, JoinerInfo>`) as an association
list; iteration order is irrelevant to the verified claims. -/
abbrev JoinerMap := List (JoinerKey × JoinerInfo)

/-- Lookup in the joiner map (`std::map::find`). -/
def mapFind : JoinerMap → JoinerKey → Option JoinerInfo
  | [], _ => none
  | (k2, v) :: rest, k => if k2 = k then some v else mapFind rest k

/-- Insertion that keeps an existing entry (`std::map::emplace`). -/
def mapEmplace (m : JoinerMap) (k : JoinerKey) (v : JoinerInfo) : JoinerMap :=
  if (mapFind m k).isSome then m else m ++ [(k, v)]

/-- Removal by key (`std::map::erase`). -/
def mapErase (m : JoinerMap) (k : JoinerKey) : JoinerMap :=
  m.filter (fun kv => decide (kv.1 ≠ k))

/-- `CommissionerApp::EraseAllJoiners`: remove every entry of the given type. -/
def eraseAllJoiners (m : JoinerMap) (aJoinerType : JoinerType) : JoinerMap :=
  m.filter (fun kv => decide (kv.1.mType ≠ aJoinerType))

/-- Update-or-insert in a natural-keyed association map (`std::map::operator[]`
followed by assignment). -/
def assocSet : List (Nat × Nat) → Nat → Nat → List (Nat × Nat)
  | [], k, v => [(k, v)]
  | (k2, v2) :: rest, k, v =>
      if k2 = k then (k, v) :: rest else (k2, v2) :: assocSet rest k v

/-- Lookup in a natural-keyed association map. -/
def assocFind : List (Nat × Nat) → Nat → Option Nat
  | [], _ => none
  | (k2, v) :: rest, k => if k2 = k then some v else assocFind rest k

/-- The commissioner application state mirrored from `CommissionerApp`:
the cached datasets, the joiner map and the two report maps. The session
activity flag and session ID stand for the external `mCommissioner`
session (`IsActive()` / `GetSessionId()`). -/
structure CommissionerAppState where
  mActive : Bool := false
  mSessionIdVal : Nat := 0
  mActiveDataset : ActiveOperationalDataset := {}
  mPendingDataset : PendingOperationalDataset := {}
  mCommDataset : CommissionerDataset := {}
  mBbrDataset : BbrDataset := {}
  mJoiners : JoinerMap := []
  mPanIdConflicts : List (Nat × Nat) := []
  mEnergyReports : List (String × (Nat × List Nat)) := []
deriving Repr, DecidableEq

/-- Clearing of the two Leader-owned presence bits performed by every
joiner-management operation on its outbound dataset copy. -/
def clearLeaderFields (cd : CommissionerDataset) : CommissionerDataset :=
  { cd with sessionIdPresent := false, borderAgentLocatorPresent := false }

/-- The presence-bit side effect of the static `GetSteeringData(dataset,
type)` accessor (lines 1110-1131), which sets the bit for the selected type. -/
def setSteeringPresent (cd : CommissionerDataset) (aJoinerType : JoinerType) : CommissionerDataset :=
  match aJoinerType with
  | .kMeshCoP => { cd with steeringDataPresent := true }
  | .kAE => { cd with aeSteeringDataPresent := true }
  | .kNMKP => { cd with nmkpSteeringDataPresent := true }

/-- Read of the steering field selected by the static accessor. -/
def steeringField (cd : CommissionerDataset) (aJoinerType : JoinerType) : List Nat :=
  match aJoinerType with
  | .kMeshCoP => cd.mSteeringData
  | .kAE => cd.mAeSteeringData
  | .kNMKP => cd.mNmkpSteeringData

/-- Write through the reference returned by the static accessor. -/
def setSteeringField (cd : CommissionerDataset) (aJoinerType : JoinerType) (sd : List Nat) : CommissionerDataset :=
  match aJoinerType with
  | .kMeshCoP => { cd with mSteeringData := sd }
  | .kAE => { cd with mAeSteeringData := sd }
  | .kNMKP => { cd with mNmkpSteeringData := sd }

/-- The presence-bit side effect of the static `GetJoinerUdpPort(dataset,
type)` accessor (lines 1133-1154). -/
def setUdpPortPresent (cd : CommissionerDataset) (aJoinerType : JoinerType) : CommissionerDataset :=
  match aJoinerType with
  | .kMeshCoP => { cd with joinerUdpPortPresent := true }
  | .kAE => { cd with aeUdpPortPresent := true }
  | .kNMKP => { cd with nmkpUdpPortPresent := true }

/-- Write through the reference returned by the static port accessor. -/
def setUdpPortField (cd : CommissionerDataset) (aJoinerType : JoinerType) (p : Nat) : CommissionerDataset :=
  match aJoinerType with
  | .kMeshCoP => { cd with mJoinerUdpPort := p }
  | .kAE => { cd with mAeUdpPort := p }
  | .kNMKP => { cd with mNmkpUdpPort := p }

/-- Outcome of an operation that may send a MGMT_COMMISSIONER_SET: the
returned error, the new application state, and the dataset transmitted to
`mCommissioner->SetCommissionerDataset` (none when nothing was sent). The
external network call is abstracted by `netOk`: when false it fails and the
operation propagates `kTimeout` as a representative network error. -/
structure CommOpResult where
  error : ErrorKind
  state : CommissionerAppState
  sentCommSet : Option CommissionerDataset
deriving Repr, DecidableEq

/-- `CommissionerApp::EnableJoiner` (lines 284-310). -/
def enableJoiner (s : CommissionerAppState) (netOk : Bool) (aType : JoinerType)
    (aEui64 : Nat) (aPSKd : List Nat) (aProvisioningUrl : String) : CommOpResult :=
  let joinerId := computeJoinerId aEui64
  let commDataset := setSteeringPresent (clearLeaderFields s.mCommDataset) aType
  if ¬ s.mActive then
    { error := .kInvalidState, state := s, sentCommSet := none }
  else if (mapFind s.mJoiners ⟨aType, joinerId⟩).isSome then
    { error := .kAlreadyExists, state := s, sentCommSet := none }
  else
    let commDataset := setSteeringField commDataset aType
      (addJoiner (steeringField commDataset aType) joinerId)
    if netOk then
      { error := .kNone,
        state := { s with
          mCommDataset := mergeCommissionerDataset s.mCommDataset commDataset,
          mJoiners := mapEmplace s.mJoiners ⟨aType, joinerId⟩
            ⟨aType, aEui64, aPSKd, aProvisioningUrl, false⟩ },
        sentCommSet := some commDataset }
    else
      { error := .kTimeout, state := s, sentCommSet := some commDataset }

/-- `CommissionerApp::DisableJoiner` (lines 312-342), translated with the
loop exactly as written: the rebuild computes `ComputeJoinerId(aEui64)` (the
argument, not the remaining joiner being visited) and the final erase uses
the last value the loop variable took (the empty array when the loop body
never ran). -/
def disableJoiner (s : CommissionerAppState) (netOk : Bool) (aType : JoinerType)
    (aEui64 : Nat) : CommOpResult :=
  let commDataset := setSteeringPresent (clearLeaderFields s.mCommDataset) aType
  if ¬ s.mActive then
    { error := .kInvalidState, state := s, sentCommSet := none }
  else
    let fin := s.mJoiners.foldl
      (fun (acc : List Nat × List Nat) kv =>
        if kv.2.mType = aType ∧ kv.2.mEui64 = aEui64 then acc
        else
          let joinerId := computeJoinerId aEui64
          (addJoiner acc.1 joinerId, joinerId))
      ([0x00], [])
    let commDataset := setSteeringField commDataset aType fin.1
    if netOk then
      { error := .kNone,
        state := { s with
          mCommDataset := mergeCommissionerDataset s.mCommDataset commDataset,
          mJoiners := mapErase s.mJoiners ⟨aType, fin.2⟩ },
        sentCommSet := some commDataset }
    else
      { error := .kTimeout, state := s, sentCommSet := some commDataset }

/-- `CommissionerApp::EnableAllJoiners` (lines 344-367). -/
def enableAllJoiners (s : CommissionerAppState) (netOk : Bool) (aType : JoinerType)
    (aPSKd : List Nat) (aProvisioningUrl : String) : CommOpResult :=
  let commDataset := setSteeringPresent (clearLeaderFields s.mCommDataset) aType
  if ¬ s.mActive then
    { error := .kInvalidState, state := s, sentCommSet := none }
  else
    let commDataset := setSteeringField commDataset aType [0xFF]
    if netOk then
      let joinerId := computeJoinerId 0
      { error := .kNone,
        state := { s with
          mCommDataset := mergeCommissionerDataset s.mCommDataset commDataset,
          mJoiners := mapEmplace (eraseAllJoiners s.mJoiners aType) ⟨aType, joinerId⟩
            ⟨aType, 0, aPSKd, aProvisioningUrl, false⟩ },
        sentCommSet := some commDataset }
    else
      { error := .kTimeout, state := s, sentCommSet := some commDataset }

/-- `CommissionerApp::DisableAllJoiners` (lines 369-388). -/
def disableAllJoiners (s : CommissionerAppState) (netOk : Bool) (aType : JoinerType) : CommOpResult :=
  let commDataset := setSteeringPresent (clearLeaderFields s.mCommDataset) aType
  if ¬ s.mActive then
    { error := .kInvalidState, state := s, sentCommSet := none }
  else
    let commDataset := setSteeringField commDataset aType [0x00]
    if netOk then
      { error := .kNone,
        state := { s with
          mCommDataset := mergeCommissionerDataset s.mCommDataset commDataset,
          mJoiners := eraseAllJoiners s.mJoiners aType },
        sentCommSet := some commDataset }
    else
      { error := .kTimeout, state := s, sentCommSet := some commDataset }

/-- `CommissionerApp::SetJoinerUdpPort` (lines 433-450). -/
def setJoinerUdpPort (s : CommissionerAppState) (netOk : Bool) (aType : JoinerType)
    (aUdpPort : Nat) : CommOpResult :=
  let commDataset := setUdpPortPresent (clearLeaderFields s.mCommDataset) aType
  if ¬ s.mActive then
    { error := .kInvalidState, state := s, sentCommSet := none }
  else
    let commDataset := setUdpPortField commDataset aType aUdpPort
    if netOk then
      { error := .kNone,
        state := { s with mCommDataset := mergeCommissionerDataset s.mCommDataset commDataset },
        sentCommSet := some commDataset }
    else
      { error := .kTimeout, state := s, sentCommSet := some commDataset }

/-- `CommissionerApp::IsJoinerCommissioned` (lines 390-400). -/
def isJoinerCommissioned (s : CommissionerAppState) (aType : JoinerType) (aEui64 : Nat) : Bool :=
  match mapFind s.mJoiners ⟨aType, computeJoinerId aEui64⟩ with
  | none => false
  | some joiner => joiner.mIsCommissioned

/-- `CommissionerApp::GetSessionId` (lines 226-236): the session ID from
the external commissioner, guarded by the activity check. -/
def getSessionId (s : CommissionerAppState) : ErrorKind × Option Nat :=
  if ¬ s.mActive then (.kInvalidState, none) else (.kNone, some s.mSessionIdVal)

/-- Outcome of an operation that may send a MGMT_PENDING_SET. -/
structure PendingOpResult where
  error : ErrorKind
  state : CommissionerAppState
  sentPendingSet : Option PendingOperationalDataset
deriving Repr, DecidableEq

/-- `CommissionerApp::SetChannel` (lines 504-523): build a pending dataset
carrying Channel and DelayTimer, send it, merge on success. -/
def setChannel (s : CommissionerAppState) (netOk : Bool) (aChannel : Channel)
    (aDelay : Nat) : PendingOpResult :=
  if ¬ s.mActive then
    { error := .kInvalidState, state := s, sentPendingSet := none }
  else
    let pendingDataset : PendingOperationalDataset :=
      { mChannel := aChannel, channelPresent := true,
        mDelayTimer := aDelay, delayTimerPresent := true }
    if netOk then
      { error := .kNone,
        state := { s with mPendingDataset := mergePendingDataset s.mPendingDataset pendingDataset },
        sentPendingSet := some pendingDataset }
    else
      { error := .kTimeout, state := s, sentPendingSet := some pendingDataset }

/-- Outcome of a management query (PAN ID query, energy scan): the returned
error, the new state, and whether the MGMT query was handed to the
transport. -/
structure QueryOpResult where
  error : ErrorKind
  state : CommissionerAppState
  sentQuery : Bool
deriving Repr, DecidableEq

/-- `CommissionerApp::PanIdQuery` (lines 1018-1028): activity check, then
forward to the external commissioner; the local state is untouched. -/
def panIdQuery (s : CommissionerAppState) (netOk : Bool) (aChannelMask : Nat)
    (aPanId : Nat) (aDstAddr : String) : QueryOpResult :=
  if ¬ s.mActive then
    { error := .kInvalidState, state := s, sentQuery := false }
  else if netOk then
    { error := .kNone, state := s, sentQuery := true }
  else
    { error := .kTimeout, state := s, sentQuery := true }

/-- `CommissionerApp::EnergyScan` (lines 1035-1049): activity check, then
forward to the external commissioner; the local state is untouched. -/
def energyScan (s : CommissionerAppState) (netOk : Bool) (aChannelMask : Nat)
    (aCount : Nat) (aPeriod : Nat) (aScanDuration : Nat) (aDstAddr : String) : QueryOpResult :=
  if ¬ s.mActive then
    { error := .kInvalidState, state := s, sentQuery := false }
  else if netOk then
    { error := .kNone, state := s, sentQuery := true }
  else
    { error := .kTimeout, state := s, sentQuery := true }

/-- `CommissionerApp::HasPanIdConflict` (lines 1030-1033). -/
def hasPanIdConflict (s : CommissionerAppState) (aPanId : Nat) : Bool :=
  (assocFind s.mPanIdConflicts aPanId).isSome

/-- `CommissionerApp::HandlePanIdConflict` (lines 1345-1361): on a
successful notification, record the channel mask under the PAN ID. -/
def handlePanIdConflict (s : CommissionerAppState) (aChannelMask : Nat) (aPanId : Nat)
    (aError : ErrorKind) : CommissionerAppState :=
  if aError ≠ .kNone then s
  else { s with mPanIdConflicts := assocSet s.mPanIdConflicts aPanId aChannelMask }

/-- The MLR status signalling success (`kMlrStatusSuccess`; declaration not
under src/, the spec fixes success to status byte 0). -/
def kMlrStatusSuccess : Nat := 0

/-- `CommissionerApp::RegisterMulticastListener` (lines 985-1001). The two
external steps are abstracted as oracle inputs: `pbbrAddr` is the result of
`GetPrimaryBbrAddr` (none when that lookup failed with its own error, here
`kNotFound`), and `mlrStatus` the status byte of the MLR exchange (none
when the exchange itself failed, here `kTimeout`). -/
def registerMulticastListener (s : CommissionerAppState) (pbbrAddr : Option String)
    (aMulticastAddrList : List String) (aTimeout : Nat) (mlrStatus : Option Nat) : ErrorKind :=
  if ¬ s.mActive then .kInvalidState
  else
    match pbbrAddr with
    | none => .kNotFound
    | some _ =>
      match mlrStatus with
      | none => .kTimeout
      | some status => if status = kMlrStatusSuccess then .kNone else .kRejected

/-- `random::non_crypto::GetUint32` produces an arbitrary `uint32_t`; its
output is modelled as an arbitrary natural truncated to 32 bits. -/
def getUint32 (x : Nat) : Nat := x % 4294967296

/-- `random::non_crypto::GetUint8` (random.hpp lines 66-69): the low byte
of `GetUint32`. -/
def getUint8 (x : Nat) : Nat := getUint32 x &&& 0xff

/-- `random::non_crypto::GetUint16` (random.hpp lines 77-80): the low two
bytes of `GetUint32`. -/
def getUint16 (x : Nat) : Nat := getUint32 x &&& 0xffff

/-- `random::non_crypto::GetUint8InRange` (random.hpp lines 88-91): the
arithmetic happens after integer promotion and the result is truncated back
to `uint8_t` on return, hence the trailing mod 256. -/
def getUint8InRange (aMin aMax x : Nat) : Nat :=
  (aMin + getUint8 x % (aMax - aMin)) % 256

/-- `random::non_crypto::GetUint16InRange` (random.hpp lines 104-107),
truncated back to `uint16_t` on return. -/
def getUint16InRange (aMin aMax x : Nat) : Nat :=
  (aMin + getUint16 x % (aMax - aMin)) % 65536

/-- `random::non_crypto::GetUint32InRange` (random.hpp lines 121-124): all
arithmetic in `uint32_t`. -/
def getUint32InRange (aMin aMax x : Nat) : Nat :=
  (aMin + getUint32 x % (aMax - aMin)) % 4294967296

/-- The joiner ID as the spec words it: the first 8 bytes of SHA-256 of the
big-endian 8-byte encoding of the EUI-64, with byte 0 bitwise-ORed with
0x02. Stated for comparison with `computeJoinerId` translated from the
source. -/
def joinerIdOfSpec (e : Nat) : List Nat :=
  match (sha256 (encodeU64BE e)).take 8 with
  | [] => []
  | b :: rest => (b ||| 0x02) :: rest

/-- ORing in the 0x02 mask forces bit 1 of the result. -/
theorem or_mask_and_mask (b : Nat) : (b ||| 2) &&& 2 = 2 := by
  have ht : (b ||| 2).testBit 1 = true := by
    rw [Nat.testBit_lor]
    have h2 : Nat.testBit 2 1 = true := by decide
    simp [h2]
  calc (b ||| 2) &&& 2 = (b ||| 2) &&& 2 ^ 1 := by norm_num
    _ = ((b ||| 2).testBit 1).toNat * 2 ^ 1 := Nat.and_two_pow _ 1
    _ = 2 := by rw [ht]; norm_num

/-- C4: for every 64-bit EUI-64 e, ComputeJoinerId(e) is the first 8 bytes
of SHA-256 of the big-endian 8-byte encoding of e with byte 0 ORed with
0x02, and byte 0 of the result has the 0x02 bit set. -/
theorem computeJoinerId_law (e : Nat) (he : e < 2 ^ 64) :
    computeJoinerId e = joinerIdOfSpec e ∧
    ((computeJoinerId e).getD 0 0) &&& 0x02 = 0x02 ∧
    (computeJoinerId e).length = 8 := by
  have hlen : ((sha256 (encodeU64BE e)).take 8).length = 8 := by
    rw [List.length_take, sha256_length]
    norm_num
  rcases hx : (sha256 (encodeU64BE e)).take 8 with _ | ⟨b, rest⟩
  · rw [hx] at hlen
    simp at hlen
  · have hc : computeJoinerId e = (b ||| 2) :: rest := by
      simp only [computeJoinerId, kJoinerIdLength, kLocalExternalAddrMask, hx]
      simp [List.set]
    refine ⟨?_, ?_, ?_⟩
    · rw [hc]
      simp only [joinerIdOfSpec, hx]
    · rw [hc]
      simpa using or_mask_and_mask b
    · rw [hc]
      rw [hx] at hlen
      simpa using hlen

/-- Witness for C4 at the EUI-64 value 1. -/
theorem computeJoinerId_law_witness :
    computeJoinerId 1 = joinerIdOfSpec 1 ∧
    ((computeJoinerId 1).getD 0 0) &&& 0x02 = 0x02 ∧
    (computeJoinerId 1).length = 8 :=
  computeJoinerId_law 1 (by norm_num)

/-- C5: for a discerner-based joiner the joiner ID is the stored
8-byte payload, byte for byte. -/
theorem computeJoinerIdOfDiscerner_verbatim (d : JoinerDiscerner) (hd : d.mData.length = 8) :
    computeJoinerIdOfDiscerner d = d.mData ∧ (computeJoinerIdOfDiscerner d).length = 8 :=
  ⟨rfl, hd⟩

/-- Witness for C5 at a concrete 8-byte discerner. -/
theorem computeJoinerIdOfDiscerner_verbatim_witness :
    computeJoinerIdOfDiscerner ⟨[1, 2, 3, 4, 5, 6, 7, 8]⟩ = [1, 2, 3, 4, 5, 6, 7, 8] ∧
    (computeJoinerIdOfDiscerner ⟨[1, 2, 3, 4, 5, 6, 7, 8]⟩).length = 8 :=
  computeJoinerIdOfDiscerner_verbatim ⟨[1, 2, 3, 4, 5, 6, 7, 8]⟩ (by decide)

/-- Bounds of the shared in-range pattern min + (r mod (max - min)), with
the final truncation modulo the word size shown to be the identity. -/
theorem add_mod_range (aMin aMax r m : Nat) (h1 : aMin < aMax) (h2 : aMax ≤ m) :
    aMin ≤ (aMin + r % (aMax - aMin)) % m ∧ (aMin + r % (aMax - aMin)) % m < aMax ∧
    aMin + r % (aMax - aMin) < m := by
  have hr : r % (aMax - aMin) < aMax - aMin := Nat.mod_lt _ (by omega)
  have hlt : aMin + r % (aMax - aMin) < m := by omega
  rw [Nat.mod_eq_of_lt hlt]
  omega

/-- C10: each GetUintNInRange returns a value in [aMin, aMax) for every
generator output, and the computation aMin + (x mod (aMax - aMin)) stays
below 2^N, so it never overflows the result type. -/
theorem getUintInRange_bounds (aMin8 aMax8 aMin16 aMax16 aMin32 aMax32 x : Nat)
    (h8 : aMin8 < aMax8) (h8m : aMax8 < 256)
    (h16 : aMin16 < aMax16) (h16m : aMax16 < 65536)
    (h32 : aMin32 < aMax32) (h32m : aMax32 < 4294967296) :
    (aMin8 ≤ getUint8InRange aMin8 aMax8 x ∧ getUint8InRange aMin8 aMax8 x < aMax8 ∧
      aMin8 + getUint8 x % (aMax8 - aMin8) < 256) ∧
    (aMin16 ≤ getUint16InRange aMin16 aMax16 x ∧ getUint16InRange aMin16 aMax16 x < aMax16 ∧
      aMin16 + getUint16 x % (aMax16 - aMin16) < 65536) ∧
    (aMin32 ≤ getUint32InRange aMin32 aMax32 x ∧ getUint32InRange aMin32 aMax32 x < aMax32 ∧
      aMin32 + getUint32 x % (aMax32 - aMin32) < 4294967296) := by
  refine ⟨?_, ?_, ?_⟩
  · simpa only [getUint8InRange] using
      add_mod_range aMin8 aMax8 (getUint8 x) 256 h8 (by omega)
  · simpa only [getUint16InRange] using
      add_mod_range aMin16 aMax16 (getUint16 x) 65536 h16 (by omega)
  · simpa only [getUint32InRange] using
      add_mod_range aMin32 aMax32 (getUint32 x) 4294967296 h32 (by omega)

/-- Witness for C10 at concrete bounds and generator output. -/
theorem getUintInRange_bounds_witness :
    (3 ≤ getUint8InRange 3 10 123 ∧ getUint8InRange 3 10 123 < 10 ∧
      3 + getUint8 123 % (10 - 3) < 256) ∧
    (5 ≤ getUint16InRange 5 300 123 ∧ getUint16InRange 5 300 123 < 300 ∧
      5 + getUint16 123 % (300 - 5) < 65536) ∧
    (7 ≤ getUint32InRange 7 70000 123 ∧ getUint32InRange 7 70000 123 < 70000 ∧
      7 + getUint32 123 % (70000 - 7) < 4294967296) :=
  getUintInRange_bounds 3 10 5 300 7 70000 123 (by norm_num) (by norm_num)
    (by norm_num) (by norm_num) (by norm_num) (by norm_num)

/-- C2: MergeDataset asymmetry. On the Commissioner dataset the six
SteeringData/UdpPort family fields are copied when present in src and have
their presence bit cleared in dst when absent in src; on the Active,
Pending and BBR datasets a field absent in src leaves the dst field (value
and presence bit) completely unchanged. -/
theorem mergeDataset_asymmetry (dst src : CommissionerDataset)
    (adst asrc : ActiveOperationalDataset) (pdst psrc : PendingOperationalDataset)
    (bdst bsrc : BbrDataset) :
    ((src.steeringDataPresent = true →
        (mergeCommissionerDataset dst src).mSteeringData = src.mSteeringData ∧
        (mergeCommissionerDataset dst src).steeringDataPresent = true) ∧
     (src.steeringDataPresent = false →
        (mergeCommissionerDataset dst src).steeringDataPresent = false) ∧
     (src.aeSteeringDataPresent = true →
        (mergeCommissionerDataset dst src).mAeSteeringData = src.mAeSteeringData ∧
        (mergeCommissionerDataset dst src).aeSteeringDataPresent = true) ∧
     (src.aeSteeringDataPresent = false →
        (mergeCommissionerDataset dst src).aeSteeringDataPresent = false) ∧
     (src.nmkpSteeringDataPresent = true →
        (mergeCommissionerDataset dst src).mNmkpSteeringData = src.mNmkpSteeringData ∧
        (mergeCommissionerDataset dst src).nmkpSteeringDataPresent = true) ∧
     (src.nmkpSteeringDataPresent = false →
        (mergeCommissionerDataset dst src).nmkpSteeringDataPresent = false) ∧
     (src.joinerUdpPortPresent = true →
        (mergeCommissionerDataset dst src).mJoinerUdpPort = src.mJoinerUdpPort ∧
        (mergeCommissionerDataset dst src).joinerUdpPortPresent = true) ∧
     (src.joinerUdpPortPresent = false →
        (mergeCommissionerDataset dst src).joinerUdpPortPresent = false) ∧
     (src.aeUdpPortPresent = true →
        (mergeCommissionerDataset dst src).mAeUdpPort = src.mAeUdpPort ∧
        (mergeCommissionerDataset dst src).aeUdpPortPresent = true) ∧
     (src.aeUdpPortPresent = false →
        (mergeCommissionerDataset dst src).aeUdpPortPresent = false) ∧
     (src.nmkpUdpPortPresent = true →
        (mergeCommissionerDataset dst src).mNmkpUdpPort = src.mNmkpUdpPort ∧
        (mergeCommissionerDataset dst src).nmkpUdpPortPresent = true) ∧
     (src.nmkpUdpPortPresent = false →
        (mergeCommissionerDataset dst src).nmkpUdpPortPresent = false)) ∧
    ((asrc.activeTimestampPresent = false →
        (mergeActiveDataset adst asrc).mActiveTimestamp = adst.mActiveTimestamp ∧
        (mergeActiveDataset adst asrc).activeTimestampPresent = adst.activeTimestampPresent) ∧
     (asrc.channelPresent = false →
        (mergeActiveDataset adst asrc).mChannel = adst.mChannel ∧
        (mergeActiveDataset adst asrc).channelPresent = adst.channelPresent) ∧
     (asrc.channelMaskPresent = false →
        (mergeActiveDataset adst asrc).mChannelMask = adst.mChannelMask ∧
        (mergeActiveDataset adst asrc).channelMaskPresent = adst.channelMaskPresent) ∧
     (asrc.extendedPanIdPresent = false →
        (mergeActiveDataset adst asrc).mExtendedPanId = adst.mExtendedPanId ∧
        (mergeActiveDataset adst asrc).extendedPanIdPresent = adst.extendedPanIdPresent) ∧
     (asrc.meshLocalPfxPresent = false →
        (mergeActiveDataset adst asrc).mMeshLocalPfx = adst.mMeshLocalPfx ∧
        (mergeActiveDataset adst asrc).meshLocalPfxPresent = adst.meshLocalPfxPresent) ∧
     (asrc.networkMasterKeyPresent = false →
        (mergeActiveDataset adst asrc).mNetworkMasterKey = adst.mNetworkMasterKey ∧
        (mergeActiveDataset adst asrc).networkMasterKeyPresent = adst.networkMasterKeyPresent) ∧
     (asrc.networkNamePresent = false →
        (mergeActiveDataset adst asrc).mNetworkName = adst.mNetworkName ∧
        (mergeActiveDataset adst asrc).networkNamePresent = adst.networkNamePresent) ∧
     (asrc.panIdPresent = false →
        (mergeActiveDataset adst asrc).mPanId = adst.mPanId ∧
        (mergeActiveDataset adst asrc).panIdPresent = adst.panIdPresent) ∧
     (asrc.pskcPresent = false →
        (mergeActiveDataset adst asrc).mPSKc = adst.mPSKc ∧
        (mergeActiveDataset adst asrc).pskcPresent = adst.pskcPresent) ∧
     (asrc.securityPolicyPresent = false →
        (mergeActiveDataset adst asrc).mSecurityPolicy = adst.mSecurityPolicy ∧
        (mergeActiveDataset adst asrc).securityPolicyPresent = adst.securityPolicyPresent)) ∧
    ((psrc.pendingTimestampPresent = false →
        (mergePendingDataset pdst psrc).mPendingTimestamp = pdst.mPendingTimestamp ∧
        (mergePendingDataset pdst psrc).pendingTimestampPresent = pdst.pendingTimestampPresent) ∧
     (psrc.delayTimerPresent = false →
        (mergePendingDataset pdst psrc).mDelayTimer = pdst.mDelayTimer ∧
        (mergePendingDataset pdst psrc).delayTimerPresent = pdst.delayTimerPresent) ∧
     (psrc.channelPresent = false →
        (mergePendingDataset pdst psrc).mChannel = pdst.mChannel ∧
        (mergePendingDataset pdst psrc).channelPresent = pdst.channelPresent)) ∧
    ((bsrc.triHostnamePresent = false →
        (mergeBbrDataset bdst bsrc).mTriHostname = bdst.mTriHostname ∧
        (mergeBbrDataset bdst bsrc).triHostnamePresent = bdst.triHostnamePresent) ∧
     (bsrc.registrarHostnamePresent = false →
        (mergeBbrDataset bdst bsrc).mRegistrarHostname = bdst.mRegistrarHostname ∧
        (mergeBbrDataset bdst bsrc).registrarHostnamePresent = bdst.registrarHostnamePresent) ∧
     (bsrc.registrarIpv6AddrPresent = false →
        (mergeBbrDataset bdst bsrc).mRegistrarIpv6Addr = bdst.mRegistrarIpv6Addr ∧
        (mergeBbrDataset bdst bsrc).registrarIpv6AddrPresent = bdst.registrarIpv6AddrPresent)) := by
  simp only [mergeCommissionerDataset, mergeActiveDataset, mergePendingDataset, mergeBbrDataset]
  and_intros <;> intro h <;> simp [h]

/-- Witness for C2 at concrete (default) datasets. -/
theorem mergeDataset_asymmetry_witness :
    (({} : CommissionerDataset).steeringDataPresent = false →
      (mergeCommissionerDataset {} {}).steeringDataPresent = false) ∧
    (({} : ActiveOperationalDataset).channelPresent = false →
      (mergeActiveDataset {} {}).mChannel = ({} : ActiveOperationalDataset).mChannel ∧
      (mergeActiveDataset {} {}).channelPresent = ({} : ActiveOperationalDataset).channelPresent) := by
  have h := mergeDataset_asymmetry {} {} {} {} {} {} {} {}
  exact ⟨h.1.2.1, h.2.1.2.1⟩

/-- Check that an outbound commissioner dataset, when one was sent, carries
cleared Leader-owned presence bits (SessionId, BorderAgentLocator). -/
def leaderBitsClear : Option CommissionerDataset → Bool
  | none => true
  | some d => !d.sessionIdPresent && !d.borderAgentLocatorPresent

/-- C3: every MGMT_COMMISSIONER_SET payload produced by the five
joiner-management operations has the SessionId and BorderAgentLocator
presence bits cleared, for every state, network outcome and argument. -/
theorem outbound_clears_leader_fields (s : CommissionerAppState) (netOk : Bool)
    (t : JoinerType) (e port : Nat) (pskd : List Nat) (url : String) :
    leaderBitsClear (enableJoiner s netOk t e pskd url).sentCommSet = true ∧
    leaderBitsClear (disableJoiner s netOk t e).sentCommSet = true ∧
    leaderBitsClear (enableAllJoiners s netOk t pskd url).sentCommSet = true ∧
    leaderBitsClear (disableAllJoiners s netOk t).sentCommSet = true ∧
    leaderBitsClear (setJoinerUdpPort s netOk t port).sentCommSet = true := by
  refine ⟨?_, ?_, ?_, ?_, ?_⟩ <;> cases t <;>
    simp only [enableJoiner, disableJoiner, enableAllJoiners, disableAllJoiners,
      setJoinerUdpPort, clearLeaderFields, setSteeringPresent, setUdpPortPresent,
      setSteeringField, setUdpPortField, steeringField] <;>
    split_ifs <;> simp [leaderBitsClear]

/-- C7: while the session is not Active, SetChannel, EnableJoiner,
GetSessionId, PanIdQuery and EnergyScan return InvalidState, transmit
nothing, and leave the application state (datasets and joiner map)
unchanged. -/
theorem inactive_ops_invalid_state (s : CommissionerAppState) (netOk : Bool)
    (t : JoinerType) (ch : Channel) (e delay mask pan cnt period dur : Nat)
    (pskd : List Nat) (url addr : String) (h : s.mActive = false) :
    ((setChannel s netOk ch delay).error = .kInvalidState ∧
     (setChannel s netOk ch delay).state = s ∧
     (setChannel s netOk ch delay).sentPendingSet = none) ∧
    ((enableJoiner s netOk t e pskd url).error = .kInvalidState ∧
     (enableJoiner s netOk t e pskd url).state = s ∧
     (enableJoiner s netOk t e pskd url).sentCommSet = none) ∧
    (getSessionId s = (.kInvalidState, none)) ∧
    ((panIdQuery s netOk mask pan addr).error = .kInvalidState ∧
     (panIdQuery s netOk mask pan addr).state = s ∧
     (panIdQuery s netOk mask pan addr).sentQuery = false) ∧
    ((energyScan s netOk mask cnt period dur addr).error = .kInvalidState ∧
     (energyScan s netOk mask cnt period dur addr).state = s ∧
     (energyScan s netOk mask cnt period dur addr).sentQuery = false) := by
  simp [setChannel, enableJoiner, getSessionId, panIdQuery, energyScan, h]

/-- Witness for C7 at a concrete inactive state. -/
theorem inactive_ops_invalid_state_witness :
    ((setChannel {} true {} 5000).error = .kInvalidState ∧
     (setChannel {} true {} 5000).state = ({} : CommissionerAppState) ∧
     (setChannel {} true {} 5000).sentPendingSet = none) ∧
    ((enableJoiner {} true .kMeshCoP 1 [0x4A] "").error = .kInvalidState ∧
     (enableJoiner {} true .kMeshCoP 1 [0x4A] "").state = ({} : CommissionerAppState) ∧
     (enableJoiner {} true .kMeshCoP 1 [0x4A] "").sentCommSet = none) ∧
    (getSessionId {} = (.kInvalidState, none)) ∧
    ((panIdQuery {} true 0x07FFF800 0x1234 "ff03::1").error = .kInvalidState ∧
     (panIdQuery {} true 0x07FFF800 0x1234 "ff03::1").state = ({} : CommissionerAppState) ∧
     (panIdQuery {} true 0x07FFF800 0x1234 "ff03::1").sentQuery = false) ∧
    ((energyScan {} true 0x07FFF800 2 32 16 "ff03::1").error = .kInvalidState ∧
     (energyScan {} true 0x07FFF800 2 32 16 "ff03::1").state = ({} : CommissionerAppState) ∧
     (energyScan {} true 0x07FFF800 2 32 16 "ff03::1").sentQuery = false) :=
  inactive_ops_invalid_state {} true .kMeshCoP {} 1 5000 0x07FFF800 0x1234 2 32 16
    [0x4A] "" "ff03::1" rfl

/-- A state holding a stale PAN-ID conflict entry and a stale energy
report, with an active session, for the C8 counterexample. -/
def staleReportState : CommissionerAppState :=
  { mActive := true,
    mPanIdConflicts := [(0x1234, 0x07FFF800)],
    mEnergyReports := [("fd00::1", (0x07FFF800, [10, 20]))] }

/-- C8 counterexample: a new, successful PAN ID query does not empty the
PAN-ID-conflict map and a new energy scan does not empty the energy-report
map; the stale entries are still observable afterwards. -/
theorem query_does_not_reset_maps_counterexample :
    (panIdQuery staleReportState true 0x07FFF800 0xABCD "ff03::1").error = .kNone ∧
    (panIdQuery staleReportState true 0x07FFF800 0xABCD "ff03::1").state.mPanIdConflicts ≠ [] ∧
    hasPanIdConflict (panIdQuery staleReportState true 0x07FFF800 0xABCD "ff03::1").state 0x1234 = true ∧
    (energyScan staleReportState true 0x07FFF800 2 32 16 "ff03::1").error = .kNone ∧
    (energyScan staleReportState true 0x07FFF800 2 32 16 "ff03::1").state.mEnergyReports ≠ [] := by
  refine ⟨rfl, ?_, rfl, rfl, ?_⟩ <;> simp [panIdQuery, energyScan, staleReportState]

/-- C8 amended: PanIdQuery and EnergyScan leave the whole application state,
in particular the PAN-ID-conflict and energy-report maps, unchanged; stale
entries from earlier queries persist and are only overwritten per key by
later notifications. -/
theorem query_leaves_maps_unchanged (s : CommissionerAppState) (netOk : Bool)
    (mask pan cnt period dur : Nat) (addr : String) :
    (panIdQuery s netOk mask pan addr).state = s ∧
    (energyScan s netOk mask cnt period dur addr).state = s := by
  constructor <;> simp only [panIdQuery, energyScan] <;> split_ifs <;> rfl

/-- C9: with an active session and a resolved primary BBR address,
RegisterMulticastListener succeeds iff the MLR.rsp status byte is 0, and
any nonzero status yields an error of kind Rejected. -/
theorem registerMulticastListener_status (s : CommissionerAppState) (pbbr : String)
    (addrs : List String) (tmo st : Nat) (ha : s.mActive = true) (hst : st < 256) :
    (registerMulticastListener s (some pbbr) addrs tmo (some st) = .kNone ↔ st = 0) ∧
    (st ≠ 0 → registerMulticastListener s (some pbbr) addrs tmo (some st) = .kRejected) := by
  by_cases h0 : st = 0 <;> simp [registerMulticastListener, ha, kMlrStatusSuccess, h0]

/-- Witness for C9 at a concrete active state and status byte 3. -/
theorem registerMulticastListener_status_witness :
    (registerMulticastListener { mActive := true } (some "fd00::2") ["ff04::1"] 300 (some 3) =
        .kNone ↔ (3 : Nat) = 0) ∧
    ((3 : Nat) ≠ 0 → registerMulticastListener { mActive := true } (some "fd00::2") ["ff04::1"]
        300 (some 3) = .kRejected) :=
  registerMulticastListener_status { mActive := true } "fd00::2" ["ff04::1"] 300 3 rfl
    (by norm_num)

/-- Lookup distributes over append when the left part misses the key. -/
theorem mapFind_append_of_none (l1 l2 : JoinerMap) (k : JoinerKey)
    (h : mapFind l1 k = none) : mapFind (l1 ++ l2) k = mapFind l2 k := by
  induction l1 with
  | nil => rfl
  | cons kv rest ih =>
    rcases kv with ⟨k2, v2⟩
    rw [List.cons_append]
    simp only [mapFind] at h ⊢
    split at h
    · exact absurd h (by simp)
    next hne => rw [if_neg hne]; exact ih h

/-- After EraseAllJoiners no key of the erased type remains findable. -/
theorem mapFind_eraseAllJoiners_same (m : JoinerMap) (t : JoinerType) (j : List Nat) :
    mapFind (eraseAllJoiners m t) ⟨t, j⟩ = none := by
  induction m with
  | nil => rfl
  | cons kv rest ih =>
    rcases kv with ⟨k2, v2⟩
    by_cases hk : k2.mType = t
    · simpa [eraseAllJoiners, List.filter_cons, hk] using ih
    · have hne : k2 ≠ (⟨t, j⟩ : JoinerKey) := by
        intro he
        exact hk (by rw [he])
      simpa [eraseAllJoiners, List.filter_cons, hk, mapFind, hne] using ih

/-- After EraseAllJoiners the entries of the erased type are gone. -/
theorem filter_type_eraseAllJoiners (m : JoinerMap) (t : JoinerType) :
    (eraseAllJoiners m t).filter (fun kv => decide (kv.1.mType = t)) = [] := by
  rw [List.filter_eq_nil_iff]
  intro kv hkv
  have h2 := (List.mem_filter.mp hkv).2
  simp only [decide_eq_true_eq] at h2 ⊢
  simpa using h2

/-- C6: a successful EnableAllJoiners sets the t-typed steering data to the
single byte 0xFF, leaves exactly the one wildcard entry keyed by
ComputeJoinerId(0) as the t-typed content of the joiner map, and afterwards
IsJoinerCommissioned is false for every EUI-64 whose joiner ID differs from
ComputeJoinerId(0). -/
theorem enableAllJoiners_wildcard (s : CommissionerAppState) (t : JoinerType)
    (e : Nat) (pskd : List Nat) (url : String) (ha : s.mActive = true)
    (he : computeJoinerId e ≠ computeJoinerId 0) :
    (enableAllJoiners s true t pskd url).error = .kNone ∧
    steeringField (enableAllJoiners s true t pskd url).state.mCommDataset t = [0xFF] ∧
    ((enableAllJoiners s true t pskd url).state.mJoiners.filter
        (fun kv => decide (kv.1.mType = t))) =
      [(⟨t, computeJoinerId 0⟩, ⟨t, 0, pskd, url, false⟩)] ∧
    isJoinerCommissioned (enableAllJoiners s true t pskd url).state t e = false := by
  have hm : (enableAllJoiners s true t pskd url).state.mJoiners =
      eraseAllJoiners s.mJoiners t ++ [(⟨t, computeJoinerId 0⟩, ⟨t, 0, pskd, url, false⟩)] := by
    simp [enableAllJoiners, ha, mapEmplace, mapFind_eraseAllJoiners_same]
  refine ⟨?_, ?_, ?_, ?_⟩
  · simp [enableAllJoiners, ha]
  · cases t <;>
      simp [enableAllJoiners, ha, mergeCommissionerDataset, setSteeringField,
        setSteeringPresent, clearLeaderFields, steeringField]
  · rw [hm, List.filter_append, filter_type_eraseAllJoiners]
    simp
  · have hne : (⟨t, computeJoinerId 0⟩ : JoinerKey) ≠ ⟨t, computeJoinerId e⟩ := by
      intro hk
      exact he (congrArg JoinerKey.mId hk).symm
    rw [isJoinerCommissioned, hm,
      mapFind_append_of_none _ _ _ (mapFind_eraseAllJoiners_same s.mJoiners t _)]
    simp [mapFind, hne]

/-- Witness for C6 at a concrete active state, MeshCoP type and EUI-64 1. -/
theorem enableAllJoiners_wildcard_witness :
    (enableAllJoiners { mActive := true } true .kMeshCoP [0x4A] "").error = .kNone ∧
    steeringField (enableAllJoiners { mActive := true } true .kMeshCoP [0x4A]
        "").state.mCommDataset .kMeshCoP = [0xFF] ∧
    ((enableAllJoiners { mActive := true } true .kMeshCoP [0x4A] "").state.mJoiners.filter
        (fun kv => decide (kv.1.mType = .kMeshCoP))) =
      [(⟨.kMeshCoP, computeJoinerId 0⟩, ⟨.kMeshCoP, 0, [0x4A], "", false⟩)] ∧
    isJoinerCommissioned (enableAllJoiners { mActive := true } true .kMeshCoP [0x4A]
        "").state .kMeshCoP 1 = false :=
  enableAllJoiners_wildcard { mActive := true } .kMeshCoP 1 [0x4A] "" rfl (by decide)

/-- The initial state of the C1 run: an active session, no cached
Commissioner dataset fields, no joiners. -/
def freshActiveState : CommissionerAppState := { mActive := true }

/-- The state after a successful EnableJoiner(MeshCoP, eui64 = 1). -/
def afterEnable : CommOpResult := enableJoiner freshActiveState true .kMeshCoP 1 [0x4A] ""

/-- The result of the subsequent successful DisableJoiner(MeshCoP, 1). -/
def afterDisable : CommOpResult := disableJoiner afterEnable.state true .kMeshCoP 1

/-- C1 evaluated at the failing input: both operations report success, yet
the joiner map still contains the entry keyed by (MeshCoP,
ComputeJoinerId(1)) (the erase used the loop variable that never ran), and
the MeshCoP steering data ends as the present single byte 0x00 although it
was absent before the EnableJoiner. -/
theorem disableJoiner_bug_eval :
    afterEnable.error = .kNone ∧
    afterDisable.error = .kNone ∧
    (mapFind afterDisable.state.mJoiners ⟨.kMeshCoP, computeJoinerId 1⟩).isSome = true ∧
    steeringField afterDisable.state.mCommDataset .kMeshCoP = [0x00] ∧
    afterDisable.state.mCommDataset.steeringDataPresent = true ∧
    freshActiveState.mCommDataset.steeringDataPresent = false := by
  decide

end OtCommissioner
